import Mathlib

/-!
Verification of the `statcast_analysis` core library (data loader + metrics).

The embedding models:
- `constants.py` swing/whiff outcome sets and zone groupings as Lean lists;
- nullable numeric columns (pandas float columns with NaN for missing) as
  `Option ℚ`, with arithmetic propagating `none` and comparisons against
  `none` evaluating to `false`, matching IEEE NaN semantics used by pandas;
- `metrics.py` functions over the column views they actually read;
- `data_loader.py` over an abstract disk `Int → Option Table` standing for
  the per-season parquet files.
-/

namespace StatcastAnalysis

/-- From `constants.py`: outcome descriptions counted as swings. -/
def SWING_OUTCOMES : List String :=
  ["swinging_strike", "swinging_strike_blocked", "foul", "foul_tip", "hit_into_play"]

/-- From `constants.py`: outcome descriptions counted as whiffs. -/
def WHIFF_OUTCOMES : List String :=
  ["swinging_strike", "swinging_strike_blocked"]

/-- From `constants.py`: zones 1-9, inside the strike zone. -/
def IN_ZONE : List Int := [1, 2, 3, 4, 5, 6, 7, 8, 9]

/-- From `constants.py`: zones 11-14, outside the strike zone. -/
def OUT_ZONE : List Int := [11, 12, 13, 14]

/-- Nullable addition: NaN propagates through pandas arithmetic. -/
def oadd (a b : Option ℚ) : Option ℚ :=
  match a, b with
  | some x, some y => some (x + y)
  | _, _ => none

/-- Nullable subtraction: NaN propagates through pandas arithmetic. -/
def osub (a b : Option ℚ) : Option ℚ :=
  match a, b with
  | some x, some y => some (x - y)
  | _, _ => none

/-- Nullable `>=`: any comparison against NaN is false in pandas/numpy. -/
def oge (a b : Option ℚ) : Bool :=
  match a, b with
  | some x, some y => decide (y ≤ x)
  | _, _ => false

/-- Nullable `<=`: any comparison against NaN is false in pandas/numpy. -/
def ole (a b : Option ℚ) : Bool :=
  match a, b with
  | some x, some y => decide (x ≤ y)
  | _, _ => false

/-- From `metrics.py` `calculate_barrel`: a batted ball is a barrel when the
exit velocity is at least 98 and the launch angle lies in a window around
26-30 degrees that widens with exit velocity, clipped to 8-50 degrees.
Scalar case; inputs are nullable (missing measurements are `none`). -/
def calculate_barrel (exit_velocity launch_angle : Option ℚ) : Bool :=
  let ev := exit_velocity
  let la := launch_angle
  oge ev (some 98) &&
  oge la (osub (some 26) (osub ev (some 98))) &&
  ole la (oadd (some 30) (osub ev (some 98))) &&
  oge la (some 8) &&
  ole la (some 50)

/-- Elementwise form of `calculate_barrel` over paired series, as when the
function is applied to two pandas Series of equal length. -/
def calculate_barrel_series (evs las : List (Option ℚ)) : List Bool :=
  (evs.zip las).map (fun p => calculate_barrel p.1 p.2)

/-- Pandas `Series.isin(outcomes)` on a nullable string column: a null entry
is never a member. -/
def isinStr (outcomes : List String) (d : Option String) : Bool :=
  match d with
  | some s => outcomes.contains s
  | none => false

/-- From `metrics.py` `whiff_rate`: swinging strikes over swings, computed
from the `description` column (nullable strings); 0.0 when no swings. -/
def whiff_rate (descriptions : List (Option String)) : ℚ :=
  let swing_count := descriptions.countP (isinStr SWING_OUTCOMES)
  let whiff_count := descriptions.countP (isinStr WHIFF_OUTCOMES)
  if 0 < swing_count then (whiff_count : ℚ) / swing_count else 0

/-- From `metrics.py` `hard_hit_rate`: batted balls at or above the exit
velocity threshold over batted balls with a recorded `launch_speed`
(a null launch speed compares false against the threshold); 0.0 when no
batted balls. The source's default threshold is 95.0. -/
def hard_hit_rate (launch_speeds : List (Option ℚ)) (threshold : ℚ) : ℚ :=
  let batted_count := launch_speeds.countP (fun x => x.isSome)
  let hard_count := launch_speeds.countP (fun x => oge x (some threshold))
  if 0 < batted_count then (hard_count : ℚ) / batted_count else 0

/-- A pitch-level row, restricted to the columns `aggregate_pa_results`
reads. `events` is the nullable terminal-outcome column; the identifier and
team columns are non-null in the dataset. -/
structure Row where
  game_pk : Int
  at_bat_number : Int
  events : Option String
  pitch_number : Int
  batter : Int
  pitcher : Int
  game_year : Int
  home_team : String
  away_team : String
deriving DecidableEq

/-- From `metrics.py` `aggregate_pa_results`: the composite plate-appearance
key `str(game_pk) + "_" + str(at_bat_number)`. -/
def paKey (r : Row) : String :=
  toString r.game_pk ++ "_" ++ toString r.at_bat_number

/-- A plate-appearance-level output row of `aggregate_pa_results`. -/
structure PARow where
  pa_key : String
  events : Option String
  pitch_number : Int
  batter : Int
  pitcher : Int
  game_pk : Int
  game_year : Int
  home_team : String
  away_team : String
deriving DecidableEq

/-- One group's aggregation in `aggregate_pa_results`: pandas `last` takes
the last non-null `events` in row order, `max` the maximum pitch number,
`first` the first row's value of each identifier column. -/
def aggGroup (k : String) (g : List Row) : PARow where
  pa_key := k
  events := (g.filterMap Row.events).getLast?
  pitch_number := ((g.map Row.pitch_number).max?).getD 0
  batter := ((g.head?).map Row.batter).getD 0
  pitcher := ((g.head?).map Row.pitcher).getD 0
  game_pk := ((g.head?).map Row.game_pk).getD 0
  game_year := ((g.head?).map Row.game_year).getD 0
  home_team := ((g.head?).map Row.home_team).getD ""
  away_team := ((g.head?).map Row.away_team).getD ""

/-- From `metrics.py` `aggregate_pa_results`: group pitch rows by the
composite key (pandas `groupby` sorts the distinct keys), aggregate each
group, then keep only groups whose aggregated `events` is non-null. -/
def aggregate_pa_results (df : List Row) : List PARow :=
  let keys := ((df.map paKey).dedup).mergeSort (fun a b => a ≤ b)
  (keys.map (fun k => aggGroup k (df.filter (fun r => paKey r == k)))).filter
    (fun p => p.events.isSome)

/-- An in-memory table as returned by `pd.read_parquet`: a list of column
names and the rows, each row holding one cell per column. -/
structure Table where
  cols : List String
  rows : List (List String)
deriving DecidableEq

/-- From `data_loader.py`: the errors `load_season` can raise. `notFound`
is Python's `FileNotFoundError` (the only kind `load_seasons` catches);
`schemaError` is the error `pd.read_parquet` raises when a projected column
is absent from the file. -/
inductive LoadError where
  | notFound (msg : String)
  | schemaError (msg : String)
deriving DecidableEq

/-- The data directory relative to the project root, `data/raw` (the
absolute `PROJECT_ROOT` prefix is abstracted away). -/
def DATA_RAW : String := "data/raw"

/-- From `data_loader.py` `load_season`: the canonical per-season file path
`DATA_RAW / statcast_year.parquet`. -/
def seasonFilePath (year : Int) : String :=
  DATA_RAW ++ "/statcast_" ++ toString year ++ ".parquet"

/-- The remediation command suggested in the not-found error message. -/
def remediationCmd (year : Int) : String :=
  "python collector/collect_statcast.py --year " ++ toString year

/-- From `data_loader.py` `load_season`: the `FileNotFoundError` message. -/
def notFoundMsg (year : Int) : String :=
  "Data file not found: " ++ seasonFilePath year ++ "\nRun: " ++ remediationCmd year

/-- From `data_loader.py` `load_seasons`: the message raised when no year in
the requested range was found. -/
def noDataMsg (start_year end_year : Int) : String :=
  "No data found for years " ++ toString start_year ++ "-" ++ toString end_year ++
    "\nRun: python collector/collect_statcast.py --range " ++ toString start_year ++
    " " ++ toString end_year

/-- Project one row to the requested columns, reading each cell by column
name (cells of columns absent from the file never occur under the schema
check in `projectTable`). -/
def projRow (cols C : List String) (r : List String) : List String :=
  C.map (fun c => (List.lookup c (cols.zip r)).getD "")

/-- Behavior of `pd.read_parquet(filepath, columns=C)`: fails with a schema
error if a requested column is absent; otherwise returns exactly the
columns `C` with the same rows in the same order. -/
def projectTable (t : Table) (C : List String) : Except LoadError Table :=
  if C.all (fun c => t.cols.contains c) then
    .ok ⟨C, t.rows.map (projRow t.cols C)⟩
  else
    .error (.schemaError "requested columns not in file")

/-- From `data_loader.py` `load_season`: the on-disk store is abstracted as
`disk : Int → Option Table`, `none` meaning the year's file does not exist.
If the file is missing, raise `FileNotFoundError` with `notFoundMsg`.
Python's `if columns:` is falsy for both `None` and the empty list, so both
return the full-width table. -/
def load_season (disk : Int → Option Table) (year : Int)
    (columns : Option (List String)) : Except LoadError Table :=
  match disk year with
  | none => .error (.notFound (notFoundMsg year))
  | some t =>
    match columns with
    | none => .ok t
    | some cols => if cols.isEmpty then .ok t else projectTable t cols

/-- Python's `range(start_year, end_year + 1)`: the inclusive year range in
ascending order, empty when `end_year < start_year`. -/
def yearRange (start_year end_year : Int) : List Int :=
  (List.range (end_year + 1 - start_year).toNat).map (fun i : Nat => start_year + (i : Int))

/-- The loop body of `load_seasons`: try each year in order, skip a year
whose file is missing (`except FileNotFoundError: continue`), let any other
error propagate, and collect the loaded tables in year order. -/
def collectSeasons (disk : Int → Option Table) (columns : Option (List String)) :
    List Int → Except LoadError (List Table)
  | [] => .ok []
  | y :: ys =>
    match load_season disk y columns, collectSeasons disk columns ys with
    | .error (.notFound _), rest => rest
    | .error (.schemaError m), _ => .error (.schemaError m)
    | .ok t, .ok ts => .ok (t :: ts)
    | .ok _, .error e => .error e

/-- Behavior of `pd.concat(dfs, ignore_index=True)` on same-schema tables:
rows are appended in list order. -/
def concatTables (ts : List Table) : Table where
  cols := ((ts.head?).map Table.cols).getD []
  rows := (ts.map Table.rows).flatten

/-- From `data_loader.py` `load_seasons`: load every year of the inclusive
range in ascending order, skipping missing years; raise the no-data error
when nothing was loaded, else concatenate in year order. -/
def load_seasons (disk : Int → Option Table) (start_year end_year : Int)
    (columns : Option (List String)) : Except LoadError Table :=
  match collectSeasons disk columns (yearRange start_year end_year) with
  | .error e => .error e
  | .ok dfs =>
    if dfs.isEmpty then .error (.notFound (noDataMsg start_year end_year))
    else .ok (concatTables dfs)

/-- Spec-side whiff count, written from the spec's words: rows whose
description is in the set containing swinging_strike and
swinging_strike_blocked. -/
def specWhiffCount (rows : List (Option String)) : Nat :=
  rows.countP (fun d => d == some "swinging_strike" || d == some "swinging_strike_blocked")

/-- Spec-side swing count, written from the spec's words: rows whose
description is in the set containing swinging_strike,
swinging_strike_blocked, foul, foul_tip and hit_into_play. -/
def specSwingCount (rows : List (Option String)) : Nat :=
  rows.countP (fun d => d == some "swinging_strike" || d == some "swinging_strike_blocked"
    || d == some "foul" || d == some "foul_tip" || d == some "hit_into_play")

/-- C1 counterexample: contrary to the claim's test expectation,
`calculate_barrel(110, 45)` is false: at exit velocity 110 the qualifying
window is 14 ≤ la ≤ 42, and 45 exceeds the upper bound 30 + (110 - 98). -/
theorem calculate_barrel_110_45_false : calculate_barrel (some 110) (some 45) = false := by
  norm_num [calculate_barrel, oge, ole, oadd, osub]

/-- C1 (amended): `calculate_barrel(ev, la)` is true iff ev ≥ 98, la ≥ 8,
la ≤ 50, la ≥ 26 - (ev - 98) and la ≤ 30 + (ev - 98), all inclusive; in
particular it is true at (98, 26), false at (98, 25), false at (97.9, 28),
false at (110, 45) and false at (110, 55). -/
theorem calculate_barrel_spec :
    (∀ ev la : ℚ, calculate_barrel (some ev) (some la) = true ↔
      (98 ≤ ev ∧ 8 ≤ la ∧ la ≤ 50 ∧ 26 - (ev - 98) ≤ la ∧ la ≤ 30 + (ev - 98))) ∧
    calculate_barrel (some 98) (some 26) = true ∧
    calculate_barrel (some 98) (some 25) = false ∧
    calculate_barrel (some (979/10)) (some 28) = false ∧
    calculate_barrel (some 110) (some 45) = false ∧
    calculate_barrel (some 110) (some 55) = false := by
  refine ⟨fun ev la => ?_, ?_, ?_, ?_, ?_, ?_⟩
  · simp only [calculate_barrel, oge, ole, oadd, osub, Bool.and_eq_true, decide_eq_true_eq]
    tauto
  all_goals norm_num [calculate_barrel, oge, ole, oadd, osub]

/-- Helper: a null input on either side makes `calculate_barrel` false. -/
lemma calculate_barrel_none (ev la : Option ℚ) (h : ev = none ∨ la = none) :
    calculate_barrel ev la = false := by
  rcases h with h | h <;> subst h
  · cases la <;> simp [calculate_barrel, oge, ole, oadd, osub]
  · cases ev <;> simp [calculate_barrel, oge, ole, oadd, osub]

/-- C8: a null exit velocity or launch angle yields "not a barrel" (false),
never an error, both for the scalar call and elementwise over series. -/
theorem calculate_barrel_null_is_false (ev la : Option ℚ) (h : ev = none ∨ la = none) :
    calculate_barrel ev la = false ∧
    ∀ (evs las : List (Option ℚ)) (i : Nat),
      evs[i]? = some ev → las[i]? = some la →
      (calculate_barrel_series evs las)[i]? = some false := by
  refine ⟨calculate_barrel_none ev la h, fun evs las i h1 h2 => ?_⟩
  have hz : (evs.zip las)[i]? = some (ev, la) :=
    List.getElem?_zip_eq_some.mpr ⟨h1, h2⟩
  simp [calculate_barrel_series, List.getElem?_map, hz, calculate_barrel_none ev la h]

/-- C8 witness at a concrete null input. -/
theorem calculate_barrel_null_is_false_witness :
    calculate_barrel none (some 20) = false :=
  (calculate_barrel_null_is_false none (some 20) (Or.inl rfl)).1

/-- C3: `whiff_rate` is the count of whiff descriptions divided by the count
of swing descriptions, and exactly 0 when the swing count is 0. -/
theorem whiff_rate_spec (rows : List (Option String)) :
    whiff_rate rows =
      if specSwingCount rows = 0 then 0
      else (specWhiffCount rows : ℚ) / specSwingCount rows := by
  have hswing : rows.countP (isinStr SWING_OUTCOMES) = specSwingCount rows := by
    refine List.countP_congr (fun d _ => ?_)
    cases d <;> simp [isinStr, SWING_OUTCOMES, List.contains, or_assoc]
  have hwhiff : rows.countP (isinStr WHIFF_OUTCOMES) = specWhiffCount rows := by
    refine List.countP_congr (fun d _ => ?_)
    cases d <;> simp [isinStr, WHIFF_OUTCOMES, List.contains]
  simp only [whiff_rate, hswing, hwhiff]
  rcases Nat.eq_zero_or_pos (specSwingCount rows) with h | h
  · simp [h]
  · simp [h, Nat.pos_iff_ne_zero.mp h]

/-- C9: for a fixed launch-speed column, `hard_hit_rate` is monotonically
non-increasing in the threshold. -/
theorem hard_hit_rate_antitone (launch_speeds : List (Option ℚ)) (t1 t2 : ℚ)
    (h : t1 ≤ t2) :
    hard_hit_rate launch_speeds t2 ≤ hard_hit_rate launch_speeds t1 := by
  unfold hard_hit_rate
  by_cases hb : 0 < launch_speeds.countP (fun x => x.isSome)
  · simp only [hb, if_pos]
    have hcount : launch_speeds.countP (fun x => oge x (some t2)) ≤
        launch_speeds.countP (fun x => oge x (some t1)) := by
      refine List.countP_mono_left (fun x _ hx => ?_)
      cases x with
      | none => simp [oge] at hx
      | some v =>
        simp only [oge, decide_eq_true_eq] at hx ⊢
        exact le_trans h hx
    have hd : (0 : ℚ) < (launch_speeds.countP (fun x => x.isSome) : ℚ) := by
      exact_mod_cast hb
    exact (div_le_div_iff_of_pos_right hd).mpr (by exact_mod_cast hcount)
  · simp only [hb, if_neg]
    simp

/-- C9 witness at a concrete column and threshold pair. -/
theorem hard_hit_rate_antitone_witness :
    hard_hit_rate [some 96, some 90, none] 97 ≤ hard_hit_rate [some 96, some 90, none] 95 :=
  hard_hit_rate_antitone [some 96, some 90, none] 95 97 (by norm_num)

/-- Helper: with no column projection, the loop of `load_seasons` collects
exactly the present years' tables, in iteration order. -/
lemma collectSeasons_none (disk : Int → Option Table) (ys : List Int) :
    collectSeasons disk none ys = .ok (ys.filterMap disk) := by
  induction ys with
  | nil => rfl
  | cons y ys ih =>
    cases hy : disk y <;>
      simp [collectSeasons, load_season, hy, ih, List.filterMap_cons]

/-- Helper: unfolded form of `load_seasons` with no column projection. -/
lemma load_seasons_none (disk : Int → Option Table) (s e : Int) :
    load_seasons disk s e none =
      if ((yearRange s e).filterMap disk).isEmpty then
        .error (.notFound (noDataMsg s e))
      else .ok (concatTables ((yearRange s e).filterMap disk)) := by
  simp [load_seasons, collectSeasons_none]

/-- Helper: a year range with a present year has a non-empty file list. -/
lemma present_filterMap_ne_nil (disk : Int → Option Table) (ys : List Int)
    (h : ∃ y ∈ ys, (disk y).isSome = true) :
    (ys.filterMap disk).isEmpty = false := by
  obtain ⟨y, hy, hsome⟩ := h
  rcases Option.isSome_iff_exists.mp hsome with ⟨t, ht⟩
  have hmem : t ∈ ys.filterMap disk := List.mem_filterMap.mpr ⟨y, hy, ht⟩
  cases hfm : ys.filterMap disk with
  | nil => rw [hfm] at hmem; cases hmem
  | cons a l => rfl

/-- C2: over a range with at least one present year, `load_seasons` returns
the concatenation, in ascending year order, of the present years' tables:
its rows are the present files' rows in order, its row count is the sum of
their row counts, and the iterated year range is strictly ascending. -/
theorem load_seasons_concat_spec (disk : Int → Option Table) (s e : Int)
    (h : ∃ y ∈ yearRange s e, (disk y).isSome = true) :
    load_seasons disk s e none = .ok (concatTables ((yearRange s e).filterMap disk)) ∧
    (concatTables ((yearRange s e).filterMap disk)).rows =
      (((yearRange s e).filterMap disk).map Table.rows).flatten ∧
    (concatTables ((yearRange s e).filterMap disk)).rows.length =
      (((yearRange s e).filterMap disk).map (fun f => f.rows.length)).sum ∧
    List.Pairwise (fun a b => a < b) (yearRange s e) := by
  have hne : ((yearRange s e).filterMap disk).isEmpty = false :=
    present_filterMap_ne_nil disk (yearRange s e) h
  refine ⟨by rw [load_seasons_none, hne]; rfl, rfl, ?_, ?_⟩
  · simp only [concatTables, List.length_flatten, List.map_map]
    exact congrArg List.sum (List.map_congr_left (fun f _ => rfl))
  · unfold yearRange
    refine List.Pairwise.map (fun i : ℕ => s + (i : ℤ))
      (fun a b hab => ?_) (List.pairwise_lt_range _)
    dsimp only
    omega

/-- C2 witness: a concrete disk with files for 2020 and 2021, loaded over
the range 2019-2021. -/
def table2020 : Table := ⟨["pitch_type"], [["FF"], ["SL"]]⟩

/-- A second concrete season table for witnesses. -/
def table2021 : Table := ⟨["pitch_type"], [["CH"]]⟩

/-- A concrete disk holding seasons 2020 and 2021 only. -/
def sampleDisk : Int → Option Table := fun y =>
  if y = 2020 then some table2020 else if y = 2021 then some table2021 else none

/-- A concrete disk holding no seasons at all. -/
def emptyDisk : Int → Option Table := fun _ => none

/-- C2 witness at the concrete disk. -/
theorem load_seasons_concat_spec_witness :
    load_seasons sampleDisk 2019 2021 none =
      .ok (concatTables ((yearRange 2019 2021).filterMap sampleDisk)) ∧
    (concatTables ((yearRange 2019 2021).filterMap sampleDisk)).rows =
      (((yearRange 2019 2021).filterMap sampleDisk).map Table.rows).flatten ∧
    (concatTables ((yearRange 2019 2021).filterMap sampleDisk)).rows.length =
      (((yearRange 2019 2021).filterMap sampleDisk).map (fun f => f.rows.length)).sum ∧
    List.Pairwise (fun a b => a < b) (yearRange 2019 2021) :=
  load_seasons_concat_spec sampleDisk 2019 2021
    ⟨2020, by decide, by decide⟩

/-- C4: over a non-empty range, `load_seasons` raises the no-data error
exactly when every year of the range is missing from disk; one present year
suffices for success. -/
theorem load_seasons_error_iff_all_missing (disk : Int → Option Table)
    (s e : Int) (h : s ≤ e) :
    (load_seasons disk s e none = .error (.notFound (noDataMsg s e)) ↔
      ∀ y ∈ yearRange s e, disk y = none) ∧
    ((∃ y ∈ yearRange s e, (disk y).isSome = true) →
      load_seasons disk s e none =
        .ok (concatTables ((yearRange s e).filterMap disk))) := by
  constructor
  · rw [load_seasons_none]
    constructor
    · intro herr
      cases hfm : (yearRange s e).filterMap disk with
      | nil => exact List.filterMap_eq_nil_iff.mp hfm
      | cons a l => rw [hfm] at herr; simp at herr
    · intro hall
      have : (yearRange s e).filterMap disk = [] := List.filterMap_eq_nil_iff.mpr hall
      rw [this]
      rfl
  · intro hpresent
    rw [load_seasons_none, present_filterMap_ne_nil disk (yearRange s e) hpresent]
    rfl

/-- C4 witness: the all-missing disk over 2020-2022 errors. -/
theorem load_seasons_error_iff_all_missing_witness :
    load_seasons emptyDisk 2020 2022 none = .error (.notFound (noDataMsg 2020 2022)) :=
  (load_seasons_error_iff_all_missing emptyDisk 2020 2022 (by norm_num)).1.mpr
    (fun y hy => rfl)

/-- C5: for a year whose file is missing, `load_season` raises the
not-found error, and that error's message contains the year, the expected
file path and the remediation command as substrings. -/
theorem load_season_not_found (disk : Int → Option Table) (year : Int)
    (columns : Option (List String)) (h : disk year = none) :
    load_season disk year columns = .error (.notFound (notFoundMsg year)) ∧
    (toString year).data <:+: (notFoundMsg year).data ∧
    (seasonFilePath year).data <:+: (notFoundMsg year).data ∧
    (remediationCmd year).data <:+: (notFoundMsg year).data := by
  refine ⟨by simp [load_season, h], ?_, ?_, ?_⟩
  · refine ⟨("Data file not found: " ++ DATA_RAW ++ "/statcast_").data,
      (".parquet" ++ "\nRun: " ++ remediationCmd year).data, ?_⟩
    simp [notFoundMsg, seasonFilePath, String.data_append]
  · exact ⟨("Data file not found: ").data, ("\nRun: " ++ remediationCmd year).data,
      by simp [notFoundMsg, String.data_append]⟩
  · exact ⟨("Data file not found: " ++ seasonFilePath year ++ "\nRun: ").data, [],
      by simp [notFoundMsg, String.data_append]⟩

/-- C5 witness at the concrete year 2024 on the empty disk. -/
theorem load_season_not_found_witness :
    load_season emptyDisk 2024 none = .error (.notFound (notFoundMsg 2024)) ∧
    (toString (2024 : Int)).data <:+: (notFoundMsg 2024).data ∧
    (seasonFilePath 2024).data <:+: (notFoundMsg 2024).data ∧
    (remediationCmd 2024).data <:+: (notFoundMsg 2024).data :=
  load_season_not_found emptyDisk 2024 none rfl

/-- C6: for a present year and a non-empty column list drawn from the
file's columns, the projected load succeeds with exactly the columns `C`,
and its rows are the positionwise projections of the unprojected rows, so
row count and row order agree with the unprojected load. -/
theorem load_season_projection (disk : Int → Option Table) (year : Int)
    (C : List String) (t : Table) (hp : disk year = some t) (hne : C ≠ [])
    (hsub : ∀ c ∈ C, c ∈ t.cols) :
    load_season disk year none = .ok t ∧
    load_season disk year (some C) = .ok ⟨C, t.rows.map (projRow t.cols C)⟩ ∧
    (t.rows.map (projRow t.cols C)).length = t.rows.length := by
  refine ⟨by simp [load_season, hp], ?_, List.length_map _ _⟩
  have hCne : C.isEmpty = false := by
    cases C with
    | nil => exact absurd rfl hne
    | cons a l => rfl
  have hall : C.all (fun c => t.cols.contains c) = true := by
    refine List.all_eq_true.mpr (fun c hc => ?_)
    simpa using hsub c hc
  simp [load_season, hp, hCne, projectTable]
  exact hsub

/-- C6 witness at the concrete disk, year 2020, projecting the one column
present in the file. -/
theorem load_season_projection_witness :
    load_season sampleDisk 2020 none = .ok table2020 ∧
    load_season sampleDisk 2020 (some ["pitch_type"]) =
      .ok ⟨["pitch_type"], table2020.rows.map (projRow table2020.cols ["pitch_type"])⟩ ∧
    (table2020.rows.map (projRow table2020.cols ["pitch_type"])).length =
      table2020.rows.length :=
  load_season_projection sampleDisk 2020 ["pitch_type"] table2020 rfl
    (by simp) (by simp [table2020])

/-- C10: passing an empty column list behaves exactly like passing no
projection at all: Python's `if columns:` is falsy for the empty list, so
the full-width table is returned. -/
theorem load_season_empty_columns (disk : Int → Option Table) (year : Int)
    (t : Table) (hp : disk year = some t) :
    load_season disk year (some []) = .ok t ∧ load_season disk year none = .ok t := by
  constructor <;> simp [load_season, hp]

/-- C10 witness at the concrete disk and year 2020. -/
theorem load_season_empty_columns_witness :
    load_season sampleDisk 2020 (some []) = .ok table2020 ∧
    load_season sampleDisk 2020 none = .ok table2020 :=
  load_season_empty_columns sampleDisk 2020 table2020 rfl

/-- Helper: `aggregate_pa_results` as a map over the filtered sorted keys,
obtained by commuting the final filter with the per-group map. -/
lemma aggregate_pa_results_eq (df : List Row) :
    aggregate_pa_results df =
      ((((df.map paKey).dedup).mergeSort (fun a b => a ≤ b)).filter
        (fun k => ((df.filter (fun r => paKey r == k)).filterMap Row.events).getLast?.isSome)).map
        (fun k => aggGroup k (df.filter (fun r => paKey r == k))) := by
  unfold aggregate_pa_results
  rw [List.filter_map]
  rfl

/-- C7: no two output rows of `aggregate_pa_results` share a plate
appearance key, every output row's `events` is non-null, and the output
cardinality equals the number of distinct keys whose group has a non-null
terminal event. -/
theorem aggregate_pa_results_spec (df : List Row) :
    ((aggregate_pa_results df).map PARow.pa_key).Nodup ∧
    (∀ p ∈ aggregate_pa_results df, p.events.isSome = true) ∧
    (aggregate_pa_results df).length =
      (df.map paKey).dedup.countP
        (fun k => ((df.filter (fun r => paKey r == k)).filterMap Row.events).getLast?.isSome) := by
  have hnodup : (((df.map paKey).dedup).mergeSort (fun a b => a ≤ b)).Nodup :=
    ((List.mergeSort_perm _ _).nodup_iff).mpr (List.nodup_dedup _)
  refine ⟨?_, ?_, ?_⟩
  · rw [aggregate_pa_results_eq, List.map_map]
    show (List.map (fun k : String => k)
      (List.filter (fun k =>
          (List.filterMap Row.events (List.filter (fun r => paKey r == k) df)).getLast?.isSome)
        ((List.map paKey df).dedup.mergeSort fun a b => decide (a ≤ b)))).Nodup
    rw [List.map_id']
    exact List.Nodup.filter _ hnodup
  · intro p hp
    rw [aggregate_pa_results_eq] at hp
    obtain ⟨k, hk, rfl⟩ := List.mem_map.mp hp
    exact (List.mem_filter.mp hk).2
  · rw [aggregate_pa_results_eq, List.length_map, ← List.countP_eq_length_filter]
    exact List.Perm.countP_eq _ (List.mergeSort_perm _ _)

end StatcastAnalysis
